import Mathlib

set_option linter.unusedSectionVars false

/-!
Verification of the virtualized Select widget of the repository
(file src/src/component/select/Select.tsx).

The widget is a controlled dropdown with a virtualized option list:
it renders only a window of the options around the current scroll
position, measures label widths with an off-screen probe, scrolls to
the selected option when opened, and closes on an outside click.

The embedding below translates the relevant parts of the component
into plain Lean functions.  The opaque JS option value type becomes a
type parameter with decidable equality (JS strict equality on opaque
identifiers).  React state hooks become fields of explicit state
records, and event handlers and effects become state-transition
functions.  Pixel quantities are natural numbers (the component only
ever produces non-negative integer pixel values from integer inputs).
-/

namespace AceSelect

/-- An option of the select list, from the source interface
SelectOption: a value of the opaque type and a display label. -/
structure SelectOption (α : Type) where
  value : α
  label : String
deriving DecidableEq

/-- Fixed row height in pixels: itemHeight = 36 in the source. -/
def itemHeight : Nat := 36

/-- Number of rows rendered for the viewport: visibleItems = 10. -/
def visibleItems : Nat := 10

/-- Extra buffer rows rendered above and below: bufferItems = 5. -/
def bufferItems : Nat := 5

/-- The JS Array.prototype.findIndex: index of the first element
satisfying the predicate, and -1 when there is none. -/
def jsFindIndex (p : β → Bool) : List β → Int
  | [] => -1
  | b :: t =>
    if p b then 0
    else
      let r := jsFindIndex p t
      if r < 0 then -1 else r + 1

/-- The JS Array.prototype.find: the first element satisfying the
predicate, if any. -/
def jsFind (p : β → Bool) : List β → Option β
  | [] => none
  | b :: t => if p b then some b else jsFind p t

variable {α : Type} [DecidableEq α]

/-- Source line: const selectedOption = options.find((opt) => opt.value === value). -/
def selectedOption (options : List (SelectOption α)) (value : α) :
    Option (SelectOption α) :=
  jsFind (fun o => decide (o.value = value)) options

/-- Source line: const selectedIndex = options.findIndex((opt) => opt.value === value). -/
def selectedIndex (options : List (SelectOption α)) (value : α) : Int :=
  jsFindIndex (fun o => decide (o.value = value)) options

/-- Text shown in the closed control: the selected label when a match
exists, the placeholder otherwise (the span rendering
selectedOption ? selectedOption.label : placeholder). -/
def displayedLabel (options : List (SelectOption α)) (value : α)
    (placeholder : String) : String :=
  match selectedOption options value with
  | some o => o.label
  | none => placeholder

/-- Source line: const totalHeight = options.length * itemHeight. -/
def totalHeight (options : List (SelectOption α)) : Nat :=
  options.length * itemHeight

/-- Start of the rendered slice: Math.max(0, visibleStartIndex - bufferItems). -/
def sliceStart (visibleStartIndex : Nat) : Nat :=
  (max 0 ((visibleStartIndex : Int) - (bufferItems : Int))).toNat

/-- Source line: const visibleOptionsEndIndex = Math.min(visibleStartIndex
+ visibleItems + bufferItems, options.length). -/
def visibleEnd (options : List (SelectOption α)) (visibleStartIndex : Nat) : Nat :=
  min (visibleStartIndex + visibleItems + bufferItems) options.length

/-- Source line: const visibleOptions = options.slice(Math.max(0,
visibleStartIndex - bufferItems), visibleOptionsEndIndex).  The JS
slice from s (inclusive) to e (exclusive) is take then drop. -/
def visibleOptions (options : List (SelectOption α)) (visibleStartIndex : Nat) :
    List (SelectOption α) :=
  (options.take (visibleEnd options visibleStartIndex)).drop (sliceStart visibleStartIndex)

/-- The mutable React state of one Select instance: the isOpen flag,
the virtual-scroll start index, and the scroll offset of the dropdown
DOM node (dropdownRef.current.scrollTop). -/
structure SelectState where
  isOpen : Bool
  visibleStartIndex : Nat
  scrollTop : Nat
deriving DecidableEq

/-- The scroll handler handleScroll: reads scrollTop of the dropdown
and sets visibleStartIndex to Math.floor(scrollTop / itemHeight). -/
def handleScroll (scrollTop : Nat) (s : SelectState) : SelectState :=
  { s with
    scrollTop := scrollTop
    visibleStartIndex := scrollTop / itemHeight }

/-- The open-scroll effect: when the dropdown is open (so its DOM node
exists) and selectedIndex is non-negative, set the scroll offset to
selectedIndex * itemHeight and recentre the window at
Math.max(0, selectedIndex - Math.floor(visibleItems / 2)). -/
def openScrollEffect (options : List (SelectOption α)) (value : α)
    (s : SelectState) : SelectState :=
  if s.isOpen ∧ 0 ≤ selectedIndex options value then
    let k := (selectedIndex options value).toNat
    { s with
      scrollTop := k * itemHeight
      visibleStartIndex :=
        (max 0 ((k : Int) - (visibleItems : Int) / 2)).toNat }
  else s

/-- The document-level mousedown handler handleClickOutside: when the
event target is outside the widget subtree, setIsOpen(false); the rest
of the state is untouched. -/
def handleClickOutside (targetOutside : Bool) (s : SelectState) : SelectState :=
  if targetOutside then { s with isOpen := false } else s

/-- One row as the render pass emits it: its index in the full option
list, its absolute top position, the displayed label, the option value
carried by its click handler, and the selected marker
(option.value === value). -/
structure RenderedOption (α : Type) where
  actualIndex : Nat
  top : Nat
  label : String
  value : α
  isSelected : Bool
deriving DecidableEq

/-- The row built for the option at full-list index i: style top is
actualIndex * itemHeight and the selected marker compares the option
value with the current value. -/
def mkRendered (value : α) (i : Nat) (o : SelectOption α) : RenderedOption α :=
  { actualIndex := i
    top := i * itemHeight
    label := o.label
    value := o.value
    isSelected := decide (o.value = value) }

/-- The visibleOptions.map((option, index) => ...) loop: each slice
element at slice position index becomes a row with actualIndex =
Math.max(0, visibleStartIndex - bufferItems) + index. -/
def renderedFrom (value : α) (i : Nat) :
    List (SelectOption α) → List (RenderedOption α)
  | [] => []
  | o :: rest => mkRendered value i o :: renderedFrom value (i + 1) rest

/-- All rows present in the render tree for a given window start. -/
def renderedOptions (options : List (SelectOption α)) (value : α)
    (visibleStartIndex : Nat) : List (RenderedOption α) :=
  renderedFrom value (sliceStart visibleStartIndex)
    (visibleOptions options visibleStartIndex)

/-- The onClick handler of the row at slice position j: it calls
onChange(option.value) once and then setIsOpen(false).  The returned
list collects the arguments of the onChange calls made by this click,
in order. -/
def clickOption (options : List (SelectOption α)) (value : α)
    (s : SelectState) (j : Nat) : List α × SelectState :=
  match (renderedOptions options value s.visibleStartIndex)[j]? with
  | some r => ([r.value], { s with isOpen := false })
  | none => ([], s)

/-- A CSS width value as the component emits it: either the string
auto or an explicit pixel length. -/
inductive WidthStyle
  | auto
  | px (n : Nat)
deriving DecidableEq

/-- Width style of the closed control: isOpen && maxDropdownWidth > 0
gives the measured pixel width, otherwise auto. -/
def controlWidthStyle (isOpen : Bool) (maxDropdownWidth : Nat) : WidthStyle :=
  if isOpen ∧ maxDropdownWidth > 0 then .px maxDropdownWidth else .auto

/-- Width style of the dropdown list: maxDropdownWidth > 0 gives the
measured pixel width, otherwise auto. -/
def dropdownWidthStyle (maxDropdownWidth : Nat) : WidthStyle :=
  if maxDropdownWidth > 0 then .px maxDropdownWidth else .auto

/-- The forEach measurement loop over the options: maxWidth starts at
0 and each option contributes tempSpan.offsetWidth + 20 for its label,
where measure abstracts the host layout engine (the offsetWidth of the
styled probe with the given text). -/
def measureMaxWidth (measure : String → Nat) (options : List (SelectOption α)) : Nat :=
  options.foldl (fun acc o => max acc (measure o.label + 20)) 0

/-- What one run of the width-measurement effect body does to the
document and the cached width: how many times the probe node is
appended to and removed from the body, and the outcome, which is an
error when the computed-style lookup throws, and otherwise the new
cached width if one was stored. -/
structure MeasurePass where
  appended : Nat
  removed : Nat
  outcome : Except Unit (Option Nat)

/-- One execution of the width-measurement effect body.  styleInfo is
none when getComputedStyle(document.body) fails: the lookup happens
before document.body.appendChild(tempSpan), there is no handler around
it, so the error propagates and neither append nor removal happens.
When the option list is empty the body does nothing.  Otherwise the
probe is appended, every label measured, the probe removed, and
setMaxDropdownWidth stores the maximum. -/
def runWidthMeasurement (styleInfo : Option Unit) (measure : String → Nat)
    (options : List (SelectOption α)) : MeasurePass :=
  if options.length > 0 then
    match styleInfo with
    | none => { appended := 0, removed := 0, outcome := .error () }
    | some _ =>
      { appended := 1
        removed := 1
        outcome := .ok (some (measureMaxWidth measure options)) }
  else { appended := 0, removed := 0, outcome := .ok none }

/-- State of the width-measurement effect across renders: the deps
slot React keeps for the effect (the identity of the last options
array it ran for), the cached maxDropdownWidth, and a counter of how
many times the cached width has been recomputed. -/
structure WidthEffectState where
  lastOptionsId : Option Nat
  maxDropdownWidth : Nat
  recomputeCount : Nat
deriving DecidableEq

/-- The state before the first render: maxDropdownWidth starts at 0. -/
def initialWidthEffectState : WidthEffectState :=
  { lastOptionsId := none, maxDropdownWidth := 0, recomputeCount := 0 }

/-- One committed render: the effect has deps [options], so its body
runs exactly when the array identity differs from the stored deps
(optionsId models the reference identity of the options array).  The
body recomputes and stores the width only when the list is non-empty. -/
def widthEffectRender (measure : String → Nat) (optionsId : Nat)
    (options : List (SelectOption α)) (s : WidthEffectState) : WidthEffectState :=
  if s.lastOptionsId = some optionsId then s
  else if options.length > 0 then
    { lastOptionsId := some optionsId
      maxDropdownWidth := measureMaxWidth measure options
      recomputeCount := s.recomputeCount + 1 }
  else { s with lastOptionsId := some optionsId }

/-- A sequence of committed renders, each with the identity and the
content of the options prop it saw. -/
def widthEffectRun (measure : String → Nat)
    (renders : List (Nat × List (SelectOption α))) (s : WidthEffectState) :
    WidthEffectState :=
  renders.foldl (fun st r => widthEffectRender measure r.1 r.2 st) s

/-- Lifecycle events of one widget instance, as React delivers them to
the effect with an empty deps list: the effect body runs at mount, its
cleanup at unmount, and re-renders touch it not at all. -/
inductive LifecycleEvent
  | mount
  | rerender
  | unmount
deriving DecidableEq

/-- Effect of one lifecycle event on the number of registered
document-level mousedown listeners of this instance: the mount effect
calls document.addEventListener, its cleanup removeEventListener. -/
def listenerStep (n : Nat) : LifecycleEvent → Nat
  | .mount => n + 1
  | .rerender => n
  | .unmount => n - 1

/-- Number of registered outside-click listeners after a sequence of
lifecycle events, starting from none. -/
def listenerCount (events : List LifecycleEvent) : Nat :=
  events.foldl listenerStep 0

/-! ### Helper lemmas -/

theorem sliceStart_eq (v : Nat) : sliceStart v = v - bufferItems := by
  unfold sliceStart bufferItems; omega

theorem sliceStart_le (v : Nat) : sliceStart v ≤ v := by
  rw [sliceStart_eq]; omega

theorem visibleEnd_le_length (options : List (SelectOption α)) (v : Nat) :
    visibleEnd options v ≤ options.length := by
  unfold visibleEnd; omega

theorem visibleOptions_length (options : List (SelectOption α)) (v : Nat) :
    (visibleOptions options v).length = visibleEnd options v - sliceStart v := by
  have h := visibleEnd_le_length options v
  simp [visibleOptions]
  omega

theorem visibleOptions_getElem? (options : List (SelectOption α)) (v k : Nat) :
    (visibleOptions options v)[k]? =
      if sliceStart v + k < visibleEnd options v
      then options[sliceStart v + k]? else none := by
  unfold visibleOptions
  rw [List.getElem?_drop, List.getElem?_take]

theorem renderedFrom_length (value : α) (i : Nat) (l : List (SelectOption α)) :
    (renderedFrom value i l).length = l.length := by
  induction l generalizing i with
  | nil => rfl
  | cons o t ih => simp [renderedFrom, ih]

theorem renderedFrom_getElem? (value : α) (i k : Nat) (l : List (SelectOption α)) :
    (renderedFrom value i l)[k]? = l[k]?.map (mkRendered value (i + k)) := by
  induction l generalizing i k with
  | nil => simp [renderedFrom]
  | cons o t ih =>
    cases k with
    | zero => simp [renderedFrom]
    | succ k =>
      simp only [renderedFrom, List.getElem?_cons_succ, ih]
      have : i + 1 + k = i + (k + 1) := by omega
      rw [this]

theorem renderedFrom_isSelected (value : α) (i : Nat) (l : List (SelectOption α)) :
    ∀ r ∈ renderedFrom value i l, r.isSelected = decide (r.value = value) := by
  induction l generalizing i with
  | nil => simp [renderedFrom]
  | cons o t ih =>
    intro r hr
    rcases List.mem_cons.mp hr with hr | hr
    · subst hr; rfl
    · exact ih (i + 1) r hr

theorem renderedOptions_getElem? (options : List (SelectOption α)) (value : α)
    (v k : Nat) :
    (renderedOptions options value v)[k]? =
      if sliceStart v + k < visibleEnd options v
      then options[sliceStart v + k]?.map (mkRendered value (sliceStart v + k))
      else none := by
  unfold renderedOptions
  rw [renderedFrom_getElem?, visibleOptions_getElem?]
  by_cases h : sliceStart v + k < visibleEnd options v <;> simp [h]

theorem renderedOptions_length (options : List (SelectOption α)) (value : α)
    (v : Nat) :
    (renderedOptions options value v).length =
      visibleEnd options v - sliceStart v := by
  unfold renderedOptions
  rw [renderedFrom_length, visibleOptions_length]

theorem jsFindIndex_eq_of_first (p : β → Bool) (l : List β) (k : Nat) (b : β)
    (hk : l[k]? = some b) (hb : p b = true)
    (hfirst : ∀ j b', j < k → l[j]? = some b' → p b' = false) :
    jsFindIndex p l = (k : Int) := by
  induction l generalizing k with
  | nil => simp at hk
  | cons a t ih =>
    cases k with
    | zero =>
      simp at hk
      subst hk
      simp [jsFindIndex, hb]
    | succ k =>
      have ha : p a = false := hfirst 0 a (Nat.succ_pos k) (by simp)
      simp at hk
      have ht := ih k hk (fun j b' hj hj' =>
        hfirst (j + 1) b' (by omega) (by simpa using hj'))
      simp [jsFindIndex, ha, ht]

theorem jsFind_eq_of_first (p : β → Bool) (l : List β) (k : Nat) (b : β)
    (hk : l[k]? = some b) (hb : p b = true)
    (hfirst : ∀ j b', j < k → l[j]? = some b' → p b' = false) :
    jsFind p l = some b := by
  induction l generalizing k with
  | nil => simp at hk
  | cons a t ih =>
    cases k with
    | zero =>
      simp at hk
      subst hk
      simp [jsFind, hb]
    | succ k =>
      have ha : p a = false := hfirst 0 a (Nat.succ_pos k) (by simp)
      simp at hk
      have ht := ih k hk (fun j b' hj hj' =>
        hfirst (j + 1) b' (by omega) (by simpa using hj'))
      simp [jsFind, ha, ht]

theorem jsFind_eq_none (p : β → Bool) (l : List β)
    (h : ∀ b ∈ l, p b = false) : jsFind p l = none := by
  induction l with
  | nil => rfl
  | cons a t ih =>
    have ha := h a (by simp)
    simp [jsFind, ha]
    exact ih fun b hb => h b (by simp [hb])

/-- Shared characterization of the open-scroll effect when the value
matches the option at index k and at no earlier index. -/
theorem openScrollEffect_of_first (options : List (SelectOption α)) (value : α)
    (s : SelectState) (k : Nat) (o : SelectOption α)
    (hopen : s.isOpen = true)
    (hk : options[k]? = some o) (hv : o.value = value)
    (hfirst : ∀ j o', j < k → options[j]? = some o' → o'.value ≠ value) :
    openScrollEffect options value s =
      { s with
        scrollTop := k * itemHeight
        visibleStartIndex :=
          (max 0 ((k : Int) - (visibleItems : Int) / 2)).toNat } := by
  have hidx : selectedIndex options value = (k : Int) := by
    apply jsFindIndex_eq_of_first _ _ k o hk
    · simp [hv]
    · intro j o' hj hj'
      simpa using hfirst j o' hj hj'
  unfold openScrollEffect
  rw [hidx]
  simp [hopen]

/-- Shared characterization of the closed-control text when the value
matches the option at index k and at no earlier index. -/
theorem displayedLabel_of_first (options : List (SelectOption α)) (value : α)
    (placeholder : String) (k : Nat) (o : SelectOption α)
    (hk : options[k]? = some o) (hv : o.value = value)
    (hfirst : ∀ j o', j < k → options[j]? = some o' → o'.value ≠ value) :
    displayedLabel options value placeholder = o.label := by
  have hfind : selectedOption options value = some o := by
    apply jsFind_eq_of_first _ _ k o hk
    · simp [hv]
    · intro j o' hj hj'
      simpa using hfirst j o' hj hj'
  unfold displayedLabel
  rw [hfind]

theorem le_foldl_max (f : β → Nat) (a : Nat) (l : List β) :
    a ≤ l.foldl (fun acc x => max acc (f x)) a := by
  induction l generalizing a with
  | nil => simp
  | cons x t ih => exact le_trans (Nat.le_max_left a (f x)) (ih (max a (f x)))

theorem mem_le_foldl_max (f : β → Nat) (a : Nat) (l : List β) (x : β)
    (hx : x ∈ l) : f x ≤ l.foldl (fun acc y => max acc (f y)) a := by
  induction l generalizing a with
  | nil => simp at hx
  | cons y t ih =>
    rcases List.mem_cons.mp hx with hx | hx
    · subst hx
      exact le_trans (Nat.le_max_right a (f x)) (le_foldl_max f _ t)
    · exact ih (max a (f y)) hx

theorem foldl_max_attained (f : β → Nat) (a : Nat) (l : List β) :
    l.foldl (fun acc x => max acc (f x)) a = a ∨
      ∃ x ∈ l, l.foldl (fun acc y => max acc (f y)) a = f x := by
  induction l generalizing a with
  | nil => exact Or.inl rfl
  | cons y t ih =>
    rcases ih (max a (f y)) with h | ⟨x, hx, hfx⟩
    · rcases Nat.le_total a (f y) with hle | hle
      · refine Or.inr ⟨y, by simp, ?_⟩
        simpa [List.foldl, Nat.max_eq_right hle] using h
      · refine Or.inl ?_
        simpa [List.foldl, Nat.max_eq_left hle] using h
    · exact Or.inr ⟨x, by simp [hx], hfx⟩

theorem measureMaxWidth_attained (measure : String → Nat)
    (options : List (SelectOption α)) (hne : options ≠ []) :
    ∃ o ∈ options, measureMaxWidth measure options = measure o.label + 20 := by
  rcases foldl_max_attained (fun o : SelectOption α => measure o.label + 20) 0
      options with h | h
  · rcases options with _ | ⟨o, t⟩
    · exact absurd rfl hne
    · exfalso
      have hb := mem_le_foldl_max
        (fun o : SelectOption α => measure o.label + 20) 0 (o :: t) o (by simp)
      rw [h] at hb
      have hb2 : measure o.label + 20 ≤ 0 := hb
      omega
  · exact h

theorem measureMaxWidth_bound (measure : String → Nat)
    (options : List (SelectOption α)) (o : SelectOption α) (ho : o ∈ options) :
    measure o.label + 20 ≤ measureMaxWidth measure options :=
  mem_le_foldl_max (fun o : SelectOption α => measure o.label + 20) 0 options o ho

theorem widthEffectRender_same (measure : String → Nat) (oid : Nat)
    (options : List (SelectOption α)) (s : WidthEffectState)
    (h : s.lastOptionsId = some oid) :
    widthEffectRender measure oid options s = s := by
  unfold widthEffectRender
  simp [h]

theorem widthEffectRun_same (measure : String → Nat) (oid : Nat)
    (options : List (SelectOption α)) (s : WidthEffectState) (n : Nat)
    (h : s.lastOptionsId = some oid) :
    widthEffectRun measure (List.replicate n (oid, options)) s = s := by
  induction n with
  | zero => rfl
  | succ n ih =>
    unfold widthEffectRun at *
    rw [List.replicate_succ, List.foldl_cons, widthEffectRender_same _ _ _ _ h]
    exact ih

theorem widthEffectRender_changed_id (measure : String → Nat) (oid : Nat)
    (options : List (SelectOption α)) (s : WidthEffectState)
    (h : s.lastOptionsId ≠ some oid) :
    (widthEffectRender measure oid options s).lastOptionsId = some oid := by
  unfold widthEffectRender
  by_cases hne : options.length > 0 <;> simp [h, hne]

/-! ### Claim theorems -/

/-- C1: for every option list and every scroll offset scrollTop in
[0, totalHeight], after the scroll handler sets start = floor(scrollTop
/ itemHeight), the rendered subset is exactly the options with indices
from max(0, start - bufferItems) up to (exclusive) min(start +
visibleItems + bufferItems, optionCount), each rendered item absolutely
positioned at top = its full-list index times itemHeight; in particular
the item with index floor(scrollTop / itemHeight) is rendered whenever
that index is below optionCount. -/
theorem scroll_renders_exact_window (options : List (SelectOption α))
    (value : α) (s0 s : SelectState) (scrollTop : Nat)
    (hs : s = handleScroll scrollTop s0)
    (hrange : scrollTop ≤ totalHeight options) :
    s.visibleStartIndex = scrollTop / itemHeight ∧
    (renderedOptions options value s.visibleStartIndex).length =
      visibleEnd options s.visibleStartIndex - sliceStart s.visibleStartIndex ∧
    (∀ k r, (renderedOptions options value s.visibleStartIndex)[k]? = some r →
      r.actualIndex = sliceStart s.visibleStartIndex + k ∧
      r.top = r.actualIndex * itemHeight ∧
      options[r.actualIndex]? = some ⟨r.value, r.label⟩) ∧
    (∀ k, sliceStart s.visibleStartIndex + k < visibleEnd options s.visibleStartIndex →
      ∃ r, (renderedOptions options value s.visibleStartIndex)[k]? = some r) ∧
    (scrollTop / itemHeight < options.length →
      ∃ r ∈ renderedOptions options value s.visibleStartIndex,
        r.actualIndex = scrollTop / itemHeight) := by
  subst hs
  refine ⟨rfl, renderedOptions_length options value _, ?_, ?_, ?_⟩
  · intro k r hr
    rw [renderedOptions_getElem?] at hr
    split at hr
    · rcases Option.map_eq_some'.mp hr with ⟨o, ho, hro⟩
      subst hro
      exact ⟨rfl, rfl, ho⟩
    · exact absurd hr (by simp)
  · intro k hk
    have hlt : sliceStart (handleScroll scrollTop s0).visibleStartIndex + k <
        options.length :=
      lt_of_lt_of_le hk (visibleEnd_le_length options _)
    refine ⟨mkRendered value
      (sliceStart (handleScroll scrollTop s0).visibleStartIndex + k)
      (options.get ⟨sliceStart
        (handleScroll scrollTop s0).visibleStartIndex + k, hlt⟩), ?_⟩
    rw [renderedOptions_getElem?]
    simp [hk, List.getElem?_eq_getElem hlt]
  · intro hlt
    have hstart : (handleScroll scrollTop s0).visibleStartIndex =
        scrollTop / itemHeight := rfl
    have hle : sliceStart (scrollTop / itemHeight) ≤ scrollTop / itemHeight :=
      sliceStart_le _
    have hend : scrollTop / itemHeight < visibleEnd options (scrollTop / itemHeight) := by
      unfold visibleEnd visibleItems bufferItems
      omega
    set k := scrollTop / itemHeight - sliceStart (scrollTop / itemHeight) with hkdef
    have hsum : sliceStart (scrollTop / itemHeight) + k = scrollTop / itemHeight := by
      omega
    have hin : sliceStart (scrollTop / itemHeight) + k <
        visibleEnd options (scrollTop / itemHeight) := by omega
    have hltlen : sliceStart (scrollTop / itemHeight) + k < options.length :=
      lt_of_lt_of_le hin (visibleEnd_le_length options _)
    refine ⟨mkRendered value (sliceStart (scrollTop / itemHeight) + k)
      (options.get ⟨sliceStart (scrollTop / itemHeight) + k, hltlen⟩), ?_, ?_⟩
    · rw [hstart]
      have hget : (renderedOptions options value (scrollTop / itemHeight))[k]? =
          some (mkRendered value (sliceStart (scrollTop / itemHeight) + k)
            (options.get ⟨sliceStart (scrollTop / itemHeight) + k, hltlen⟩)) := by
        rw [renderedOptions_getElem? options value (scrollTop / itemHeight) k]
        simp [hin, List.getElem?_eq_getElem hltlen]
      exact List.getElem?_mem hget
    · simpa [mkRendered] using hsum

/-- C1 witness: a concrete three-option list scrolled to offset 40. -/
theorem scroll_renders_exact_window_witness :
    (handleScroll 40 ⟨true, 0, 0⟩ : SelectState) = handleScroll 40 ⟨true, 0, 0⟩ ∧
    40 ≤ totalHeight
      [(⟨0, "a"⟩ : SelectOption Nat), ⟨1, "b"⟩, ⟨2, "c"⟩] ∧
    ((handleScroll 40 ⟨true, 0, 0⟩).visibleStartIndex = 40 / itemHeight ∧
    (renderedOptions [(⟨0, "a"⟩ : SelectOption Nat), ⟨1, "b"⟩, ⟨2, "c"⟩] 1
        (handleScroll 40 ⟨true, 0, 0⟩).visibleStartIndex).length =
      visibleEnd [(⟨0, "a"⟩ : SelectOption Nat), ⟨1, "b"⟩, ⟨2, "c"⟩]
          (handleScroll 40 ⟨true, 0, 0⟩).visibleStartIndex -
        sliceStart (handleScroll 40 ⟨true, 0, 0⟩).visibleStartIndex ∧
    (∀ k r, (renderedOptions [(⟨0, "a"⟩ : SelectOption Nat), ⟨1, "b"⟩, ⟨2, "c"⟩] 1
        (handleScroll 40 ⟨true, 0, 0⟩).visibleStartIndex)[k]? = some r →
      r.actualIndex = sliceStart (handleScroll 40 ⟨true, 0, 0⟩).visibleStartIndex + k ∧
      r.top = r.actualIndex * itemHeight ∧
      [(⟨0, "a"⟩ : SelectOption Nat), ⟨1, "b"⟩, ⟨2, "c"⟩][r.actualIndex]? =
        some ⟨r.value, r.label⟩) ∧
    (∀ k, sliceStart (handleScroll 40 ⟨true, 0, 0⟩).visibleStartIndex + k <
        visibleEnd [(⟨0, "a"⟩ : SelectOption Nat), ⟨1, "b"⟩, ⟨2, "c"⟩]
          (handleScroll 40 ⟨true, 0, 0⟩).visibleStartIndex →
      ∃ r, (renderedOptions [(⟨0, "a"⟩ : SelectOption Nat), ⟨1, "b"⟩, ⟨2, "c"⟩] 1
        (handleScroll 40 ⟨true, 0, 0⟩).visibleStartIndex)[k]? = some r) ∧
    (40 / itemHeight < ([(⟨0, "a"⟩ : SelectOption Nat), ⟨1, "b"⟩, ⟨2, "c"⟩] :
        List (SelectOption Nat)).length →
      ∃ r ∈ renderedOptions [(⟨0, "a"⟩ : SelectOption Nat), ⟨1, "b"⟩, ⟨2, "c"⟩] 1
          (handleScroll 40 ⟨true, 0, 0⟩).visibleStartIndex,
        r.actualIndex = 40 / itemHeight)) :=
  ⟨rfl, by decide,
    scroll_renders_exact_window [⟨0, "a"⟩, ⟨1, "b"⟩, ⟨2, "c"⟩] 1
      ⟨true, 0, 0⟩ _ 40 rfl (by decide)⟩

/-- C2: when the dropdown is open and the current value first matches
options at index k, the open-scroll effect sets the scroll offset to
k times itemHeight and the visible window start to max(0, k -
floor(visibleItems / 2)). -/
theorem open_scrolls_to_selection (options : List (SelectOption α)) (value : α)
    (s : SelectState) (k : Nat) (o : SelectOption α)
    (hopen : s.isOpen = true)
    (hk : options[k]? = some o) (hv : o.value = value)
    (hfirst : ∀ j o', j < k → options[j]? = some o' → o'.value ≠ value) :
    (openScrollEffect options value s).scrollTop = k * itemHeight ∧
    ((openScrollEffect options value s).visibleStartIndex : Int) =
      max 0 ((k : Int) - (visibleItems : Int) / 2) := by
  rw [openScrollEffect_of_first options value s k o hopen hk hv hfirst]
  refine ⟨rfl, ?_⟩
  simp only []
  omega

/-- C2 witness: opening on a concrete list whose value matches index 1. -/
theorem open_scrolls_to_selection_witness :
    (openScrollEffect [(⟨0, "a"⟩ : SelectOption Nat), ⟨1, "b"⟩, ⟨2, "c"⟩] 1
        ⟨true, 0, 0⟩).scrollTop = 1 * itemHeight ∧
    ((openScrollEffect [(⟨0, "a"⟩ : SelectOption Nat), ⟨1, "b"⟩, ⟨2, "c"⟩] 1
        ⟨true, 0, 0⟩).visibleStartIndex : Int) =
      max 0 ((1 : Int) - (visibleItems : Int) / 2) :=
  open_scrolls_to_selection [⟨0, "a"⟩, ⟨1, "b"⟩, ⟨2, "c"⟩] 1 ⟨true, 0, 0⟩ 1
    ⟨1, "b"⟩ rfl (by decide) rfl
    (by
      intro j o' hj hj'
      interval_cases j
      simp at hj'
      subst hj'
      decide)

/-- C3: clicking the rendered option at slice position j, whose
full-list index is r.actualIndex, invokes the change callback exactly
once with the value of the option at that index, and closes the
dropdown. -/
theorem click_option_emits_value_once (options : List (SelectOption α))
    (value : α) (s : SelectState) (j : Nat) (r : RenderedOption α)
    (o : SelectOption α)
    (hopen : s.isOpen = true)
    (hr : (renderedOptions options value s.visibleStartIndex)[j]? = some r)
    (ho : options[r.actualIndex]? = some o) :
    clickOption options value s j = ([o.value], { s with isOpen := false }) := by
  unfold clickOption
  rw [hr]
  have hr' := hr
  rw [renderedOptions_getElem?] at hr'
  split at hr'
  · rcases Option.map_eq_some'.mp hr' with ⟨o', ho', hro⟩
    subst hro
    simp only [mkRendered] at ho
    rw [ho'] at ho
    cases ho
    rfl
  · exact absurd hr' (by simp)

/-- C3 witness: clicking slice position 1 of a concrete list. -/
theorem click_option_emits_value_once_witness :
    clickOption [(⟨0, "a"⟩ : SelectOption Nat), ⟨1, "b"⟩, ⟨2, "c"⟩] 1
        ⟨true, 0, 120⟩ 1 =
      ([1], { isOpen := false, visibleStartIndex := 0, scrollTop := 120 }) :=
  click_option_emits_value_once [⟨0, "a"⟩, ⟨1, "b"⟩, ⟨2, "c"⟩] 1
    ⟨true, 0, 120⟩ 1 ⟨1, 36, "b", 1, true⟩ ⟨1, "b"⟩ rfl (by decide) (by decide)

/-- C5: for every option list and every reachable window start,
totalHeight equals optionCount times itemHeight (1000 options at
itemHeight 36 give totalHeight 36000), and the number of rendered
option nodes is at most visibleItems + 2 * bufferItems. -/
theorem totalHeight_and_bounded_window (options : List (SelectOption α))
    (value : α) (start : Nat) :
    totalHeight options = options.length * itemHeight ∧
    (options.length = 1000 → totalHeight options = 36000) ∧
    (renderedOptions options value start).length ≤
      visibleItems + 2 * bufferItems := by
  refine ⟨rfl, ?_, ?_⟩
  · intro h
    rw [totalHeight, h]
    decide
  · rw [renderedOptions_length, sliceStart_eq]
    unfold visibleEnd visibleItems bufferItems
    omega

/-- C5 witness: a 1000-option list gives totalHeight 36000, and its
window at start 50 renders at most 20 nodes. -/
theorem totalHeight_and_bounded_window_witness :
    (List.replicate 1000 (⟨0, "A"⟩ : SelectOption Nat)).length = 1000 ∧
    totalHeight (List.replicate 1000 (⟨0, "A"⟩ : SelectOption Nat)) = 36000 ∧
    (renderedOptions (List.replicate 1000 (⟨0, "A"⟩ : SelectOption Nat)) 0
        50).length ≤ visibleItems + 2 * bufferItems :=
  ⟨by rw [List.length_replicate],
    (totalHeight_and_bounded_window (List.replicate 1000 ⟨0, "A"⟩) 0 50).2.1
      (by rw [List.length_replicate]),
    (totalHeight_and_bounded_window (List.replicate 1000 ⟨0, "A"⟩) 0 50).2.2⟩

/-- C6: a pointer-down outside the widget closes it when open and
leaves the state unchanged when closed; the document-level listener is
registered exactly at mount and deregistered exactly at unmount, with
re-renders leaving it untouched. -/
theorem outside_click_and_listener_lifecycle (s : SelectState) (n : Nat) :
    (s.isOpen = true →
      handleClickOutside true s = { s with isOpen := false }) ∧
    (s.isOpen = false → handleClickOutside true s = s) ∧
    listenerCount (LifecycleEvent.mount :: List.replicate n .rerender) = 1 ∧
    listenerCount ((LifecycleEvent.mount :: List.replicate n .rerender) ++
      [.unmount]) = 0 := by
  have hrerender : ∀ (m : Nat) (a : Nat),
      (List.replicate m LifecycleEvent.rerender).foldl listenerStep a = a := by
    intro m
    induction m with
    | zero => intro a; rfl
    | succ m ih =>
      intro a
      rw [List.replicate_succ, List.foldl_cons]
      exact ih a
  refine ⟨fun _ => rfl, fun h => ?_, ?_, ?_⟩
  · unfold handleClickOutside
    simp
    cases s
    simp at h
    subst h
    rfl
  · unfold listenerCount
    rw [List.foldl_cons]
    exact hrerender n 1
  · unfold listenerCount
    rw [List.cons_append, List.foldl_cons, List.foldl_append]
    have h1 : List.foldl listenerStep (listenerStep 0 LifecycleEvent.mount)
        (List.replicate n LifecycleEvent.rerender) = 1 := hrerender n 1
    rw [h1]
    rfl

/-- C6 witness: concrete open and closed states and three re-renders. -/
theorem outside_click_and_listener_lifecycle_witness :
    handleClickOutside true ⟨true, 5, 180⟩ = (⟨false, 5, 180⟩ : SelectState) ∧
    handleClickOutside true ⟨false, 5, 180⟩ = (⟨false, 5, 180⟩ : SelectState) ∧
    listenerCount (LifecycleEvent.mount :: List.replicate 3 .rerender) = 1 ∧
    listenerCount ((LifecycleEvent.mount :: List.replicate 3 .rerender) ++
      [.unmount]) = 0 :=
  ⟨(outside_click_and_listener_lifecycle ⟨true, 5, 180⟩ 3).1 rfl,
    (outside_click_and_listener_lifecycle ⟨false, 5, 180⟩ 3).2.1 rfl,
    (outside_click_and_listener_lifecycle ⟨false, 5, 180⟩ 3).2.2.1,
    (outside_click_and_listener_lifecycle ⟨false, 5, 180⟩ 3).2.2.2⟩

/-- C8: if the value first matches the option at index k the closed
control displays that label; if no option matches, it displays the
placeholder, and this is not an error (displayedLabel is total). -/
theorem closed_control_shows_label_or_placeholder
    (options : List (SelectOption α)) (value : α) (placeholder : String) :
    (∀ (k : Nat) (o : SelectOption α), options[k]? = some o → o.value = value →
      (∀ (j : Nat) (o' : SelectOption α), j < k → options[j]? = some o' →
        o'.value ≠ value) →
      displayedLabel options value placeholder = o.label) ∧
    ((∀ o ∈ options, o.value ≠ value) →
      displayedLabel options value placeholder = placeholder) := by
  constructor
  · intro k o hk hv hfirst
    exact displayedLabel_of_first options value placeholder k o hk hv hfirst
  · intro h
    have hnone : selectedOption options value = none := by
      apply jsFind_eq_none
      intro o ho
      simp [h o ho]
    unfold displayedLabel
    rw [hnone]

/-- C8 witness: options = [(1, A)] with value 1 displays A; with value
99 it displays the placeholder. -/
theorem closed_control_shows_label_or_placeholder_witness :
    displayedLabel [(⟨1, "A"⟩ : SelectOption Nat)] 1 "Select an option" = "A" ∧
    displayedLabel [(⟨1, "A"⟩ : SelectOption Nat)] 99 "Select an option" =
      "Select an option" :=
  ⟨(closed_control_shows_label_or_placeholder [⟨1, "A"⟩] 1 "Select an option").1
      0 ⟨1, "A"⟩ (by decide) rfl (fun j o' hj _ => absurd hj (by omega)),
    (closed_control_shows_label_or_placeholder [⟨1, "A"⟩] 99 "Select an option").2
      (by decide)⟩

/-- C9: with an empty option list the dropdown has zero total height
and the rendered subset is empty, for every window start. -/
theorem empty_options_zero_height_no_rows (value : α) (start : Nat) :
    totalHeight ([] : List (SelectOption α)) = 0 ∧
    renderedOptions ([] : List (SelectOption α)) value start = [] := by
  constructor
  · rfl
  · apply List.length_eq_zero.mp
    rw [renderedOptions_length]
    unfold visibleEnd
    simp

/-- C9 witness: the empty list concretely, at window start 2. -/
theorem empty_options_zero_height_no_rows_witness :
    totalHeight ([] : List (SelectOption Nat)) = 0 ∧
    renderedOptions ([] : List (SelectOption Nat)) 0 2 = [] :=
  empty_options_zero_height_no_rows 0 2

/-- C10: when more than one option value strictly equals the current
value, the closed-control label and the open-scroll target are those
of the first (lowest-index) match, while every rendered option whose
value equals the current value carries the selected marker. -/
theorem duplicate_values_first_match_wins (options : List (SelectOption α))
    (value : α) (placeholder : String) (s : SelectState) (start k : Nat)
    (o : SelectOption α)
    (hdup : 1 < (options.filter (fun o => decide (o.value = value))).length)
    (hk : options[k]? = some o) (hv : o.value = value)
    (hfirst : ∀ (j : Nat) (o' : SelectOption α), j < k →
      options[j]? = some o' → o'.value ≠ value) :
    displayedLabel options value placeholder = o.label ∧
    (s.isOpen = true →
      (openScrollEffect options value s).scrollTop = k * itemHeight ∧
      ((openScrollEffect options value s).visibleStartIndex : Int) =
        max 0 ((k : Int) - (visibleItems : Int) / 2)) ∧
    (∀ r ∈ renderedOptions options value start,
      r.isSelected = true ↔ r.value = value) := by
  refine ⟨displayedLabel_of_first options value placeholder k o hk hv hfirst,
    ?_, ?_⟩
  · intro hopen
    rw [openScrollEffect_of_first options value s k o hopen hk hv hfirst]
    refine ⟨rfl, ?_⟩
    simp only []
    omega
  · intro r hr
    rw [renderedFrom_isSelected value (sliceStart start)
      (visibleOptions options start) r hr]
    simp

/-- C10 witness: a list where two options carry value 1; the first
match sits at index 1. -/
theorem duplicate_values_first_match_wins_witness :
    displayedLabel [(⟨0, "X"⟩ : SelectOption Nat), ⟨1, "A"⟩, ⟨1, "B"⟩] 1 "P" =
      "A" ∧
    ((openScrollEffect [(⟨0, "X"⟩ : SelectOption Nat), ⟨1, "A"⟩, ⟨1, "B"⟩] 1
        ⟨true, 0, 0⟩).scrollTop = 1 * itemHeight ∧
      ((openScrollEffect [(⟨0, "X"⟩ : SelectOption Nat), ⟨1, "A"⟩, ⟨1, "B"⟩] 1
        ⟨true, 0, 0⟩).visibleStartIndex : Int) =
        max 0 ((1 : Int) - (visibleItems : Int) / 2)) ∧
    (∀ r ∈ renderedOptions [(⟨0, "X"⟩ : SelectOption Nat), ⟨1, "A"⟩, ⟨1, "B"⟩] 1
        0, r.isSelected = true ↔ r.value = 1) := by
  have h := duplicate_values_first_match_wins
    [(⟨0, "X"⟩ : SelectOption Nat), ⟨1, "A"⟩, ⟨1, "B"⟩] 1 "P" ⟨true, 0, 0⟩ 0 1
    ⟨1, "A"⟩ (by decide) (by decide) rfl
    (by
      intro j o' hj hj'
      interval_cases j
      simp at hj'
      subst hj'
      decide)
  exact ⟨h.1, h.2.1 rfl, h.2.2⟩

/-- C4 counterexample: replacing a one-option list (cached width 22
for label AB under a length-based measure) by a new empty array does
not recompute the cached width: it stays 22 instead of the empty
maximum 0, and the recomputation count does not move. -/
theorem width_not_recomputed_on_empty_change :
    (widthEffectRun String.length
        [(1, [(⟨0, "AB"⟩ : SelectOption Nat)]), (2, [])]
        initialWidthEffectState).maxDropdownWidth = 22 ∧
    measureMaxWidth String.length ([] : List (SelectOption Nat)) = 0 ∧
    (widthEffectRun String.length
        [(1, [(⟨0, "AB"⟩ : SelectOption Nat)]), (2, [])]
        initialWidthEffectState).recomputeCount =
      (widthEffectRun String.length
        [(1, [(⟨0, "AB"⟩ : SelectOption Nat)])]
        initialWidthEffectState).recomputeCount := by
  refine ⟨?_, rfl, rfl⟩
  decide

/-- C4 amended: on every change of the option list by reference to a
non-empty list the cached width is recomputed exactly once, not on the
following re-renders with the same reference, as the maximum over the
option labels of the measured label width; a change to an empty list
leaves the cached width untouched.  The cached value is the dropdown
width and, while open, the control width; while closed the control
width is automatic. -/
theorem width_recompute_once_per_options_change (measure : String → Nat)
    (oid : Nat) (options : List (SelectOption α)) (s : WidthEffectState)
    (n : Nat) (hchange : s.lastOptionsId ≠ some oid) :
    (options ≠ [] →
      (widthEffectRun measure (List.replicate (n + 1) (oid, options))
          s).maxDropdownWidth = measureMaxWidth measure options ∧
      (widthEffectRun measure (List.replicate (n + 1) (oid, options))
          s).recomputeCount = s.recomputeCount + 1 ∧
      (∃ o ∈ options, measureMaxWidth measure options = measure o.label + 20) ∧
      (∀ o ∈ options, measure o.label + 20 ≤ measureMaxWidth measure options)) ∧
    (options = [] →
      (widthEffectRun measure (List.replicate (n + 1) (oid, options))
          s).maxDropdownWidth = s.maxDropdownWidth ∧
      (widthEffectRun measure (List.replicate (n + 1) (oid, options))
          s).recomputeCount = s.recomputeCount) ∧
    (∀ w, 0 < w → controlWidthStyle true w = .px w ∧
      dropdownWidthStyle w = .px w) ∧
    (∀ w, controlWidthStyle false w = .auto) := by
  have hstep : widthEffectRun measure (List.replicate (n + 1) (oid, options)) s =
      widthEffectRun measure (List.replicate n (oid, options))
        (widthEffectRender measure oid options s) := by
    unfold widthEffectRun
    rw [List.replicate_succ, List.foldl_cons]
  refine ⟨?_, ?_, ?_, ?_⟩
  · intro hne
    have hlen : options.length > 0 := by
      cases options with
      | nil => exact absurd rfl hne
      | cons o t => simp
    have hrender : widthEffectRender measure oid options s =
        { lastOptionsId := some oid
          maxDropdownWidth := measureMaxWidth measure options
          recomputeCount := s.recomputeCount + 1 } := by
      unfold widthEffectRender
      simp [hchange, hlen]
    rw [hstep, hrender, widthEffectRun_same measure oid options _ n rfl]
    exact ⟨rfl, rfl, measureMaxWidth_attained measure options hne,
      fun o ho => measureMaxWidth_bound measure options o ho⟩
  · intro hempty
    subst hempty
    have hrender : widthEffectRender measure oid
        ([] : List (SelectOption α)) s = { s with lastOptionsId := some oid } := by
      unfold widthEffectRender
      simp [hchange]
    rw [hstep, hrender, widthEffectRun_same measure oid _ _ n rfl]
    exact ⟨rfl, rfl⟩
  · intro w hw
    constructor
    · unfold controlWidthStyle
      simp [hw]
    · unfold dropdownWidthStyle
      simp [hw]
  · intro w
    unfold controlWidthStyle
    simp

/-- C4 witness: one reference change to a two-option list followed by
two re-renders with the same reference recomputes once, and the closed
control stays automatic. -/
theorem width_recompute_once_per_options_change_witness :
    (widthEffectRun String.length
        (List.replicate 3 (7, [(⟨0, "AB"⟩ : SelectOption Nat), ⟨1, "WIDE"⟩]))
        initialWidthEffectState).maxDropdownWidth =
      measureMaxWidth String.length
        [(⟨0, "AB"⟩ : SelectOption Nat), ⟨1, "WIDE"⟩] ∧
    (widthEffectRun String.length
        (List.replicate 3 (7, [(⟨0, "AB"⟩ : SelectOption Nat), ⟨1, "WIDE"⟩]))
        initialWidthEffectState).recomputeCount =
      initialWidthEffectState.recomputeCount + 1 ∧
    controlWidthStyle false 24 = .auto := by
  have h := width_recompute_once_per_options_change String.length 7
    [(⟨0, "AB"⟩ : SelectOption Nat), ⟨1, "WIDE"⟩] initialWidthEffectState 2
    (by decide)
  have h1 := h.1 (by decide)
  exact ⟨h1.1, h1.2.1, (h.2.2.2) 24⟩

/-- C7 counterexample: when the computed-style lookup fails the
measurement body propagates the error instead of completing, refuting
the claim that no error propagates. -/
theorem style_failure_propagates_error :
    (runWidthMeasurement none String.length
        [(⟨0, "A"⟩ : SelectOption Nat)]).outcome = .error () := rfl

/-- C7 amended: every measurement pass appends the probe exactly as
often as it removes it; when the host fails to provide computed style
information on a non-empty list, the error propagates out of the
effect body before the probe is appended, the cached width is never
stored, and the still-unset width 0 renders as automatic width; in a
successful pass over a non-empty list the probe is appended once and
removed once within that same pass. -/
theorem measurement_probe_balanced (styleInfo : Option Unit)
    (measure : String → Nat) (options : List (SelectOption α)) :
    (runWidthMeasurement styleInfo measure options).appended =
      (runWidthMeasurement styleInfo measure options).removed ∧
    (styleInfo = none → options ≠ [] →
      (runWidthMeasurement styleInfo measure options).outcome = .error () ∧
      (runWidthMeasurement styleInfo measure options).appended = 0 ∧
      dropdownWidthStyle initialWidthEffectState.maxDropdownWidth = .auto ∧
      controlWidthStyle true initialWidthEffectState.maxDropdownWidth = .auto) ∧
    (styleInfo = some () → options ≠ [] →
      (runWidthMeasurement styleInfo measure options).appended = 1 ∧
      (runWidthMeasurement styleInfo measure options).removed = 1 ∧
      (runWidthMeasurement styleInfo measure options).outcome =
        .ok (some (measureMaxWidth measure options))) := by
  have hlen : options ≠ [] → options.length > 0 := by
    intro hne
    cases options with
    | nil => exact absurd rfl hne
    | cons o t => simp
  refine ⟨?_, ?_, ?_⟩
  · unfold runWidthMeasurement
    rcases styleInfo with _ | u
    · by_cases h : options.length > 0 <;> simp [h]
    · by_cases h : options.length > 0 <;> simp [h]
  · intro hnone hne
    subst hnone
    unfold runWidthMeasurement
    simp [hlen hne]
    exact ⟨rfl, rfl⟩
  · intro hsome hne
    subst hsome
    unfold runWidthMeasurement
    simp [hlen hne]

/-- C7 witness: a concrete failing pass and a concrete successful
pass. -/
theorem measurement_probe_balanced_witness :
    ((runWidthMeasurement none String.length
        [(⟨0, "A"⟩ : SelectOption Nat)]).appended =
      (runWidthMeasurement none String.length
        [(⟨0, "A"⟩ : SelectOption Nat)]).removed ∧
      (runWidthMeasurement none String.length
        [(⟨0, "A"⟩ : SelectOption Nat)]).outcome = .error () ∧
      dropdownWidthStyle initialWidthEffectState.maxDropdownWidth = .auto) ∧
    ((runWidthMeasurement (some ()) String.length
        [(⟨0, "A"⟩ : SelectOption Nat)]).appended = 1 ∧
      (runWidthMeasurement (some ()) String.length
        [(⟨0, "A"⟩ : SelectOption Nat)]).removed = 1 ∧
      (runWidthMeasurement (some ()) String.length
        [(⟨0, "A"⟩ : SelectOption Nat)]).outcome =
        .ok (some (measureMaxWidth String.length
          [(⟨0, "A"⟩ : SelectOption Nat)]))) := by
  have hfail := measurement_probe_balanced none String.length
    [(⟨0, "A"⟩ : SelectOption Nat)]
  have hok := measurement_probe_balanced (some ()) String.length
    [(⟨0, "A"⟩ : SelectOption Nat)]
  have hfussy := hfail.2.1 rfl (by decide)
  have hgood := hok.2.2 rfl (by decide)
  exact ⟨⟨hfail.1, hfussy.1, hfussy.2.2.1⟩, hgood⟩

end AceSelect
